import Mathlib

/-!
Verification of the operator kernel registry and dispatch resolver of the
MyCaffe/onnxruntime repository, as described by its specification.

The repository source under study contains the declarative static
registration of two CUDA Dropout kernels
(onnxruntime/core/providers/cuda/nn/dropout.cc).  The registry, matcher
and lookup machinery itself (onnxruntime KernelRegistry and KernelDef)
is declared elsewhere in the repository; here it is modelled from the
specification and the two Dropout descriptors are embedded directly from
dropout.cc.
-/

section KernelRegistryModel

/-- Element types appearing in the Dropout registrations and the spec test
scenarios.  float16 is MLFloat16, bfloat16 is BFloat16 in the source. -/
inductive ElementType where
  | float32
  | float64
  | float16
  | bfloat16
  | int32
  | boolT
deriving DecidableEq

/-- All element types of the model, used to enumerate concrete type
assignments. -/
def ElementType.all : List ElementType :=
  [.float32, .float64, .float16, .bfloat16, .int32, .boolT]

/-- Memory placement demanded for a slot: host pinned memory or the default
location of the backend. -/
inductive MemLocation where
  | host
  | backend_default
deriving DecidableEq

/-- One input or output slot of an operator, carrying the name of the type
constraint that governs it. -/
structure IoSlot where
  isInput : Bool
  index : Nat
  constraintName : String
deriving DecidableEq

/-- Modelled from the spec: the KernelDescriptor data model (spec section 3),
the immutable metadata that the KernelDef objects built by KernelDefBuilder in
the source carry; the KernelDef class itself is not part of the source file
under study.  version_max = none means unbounded. -/
structure KernelDescriptor where
  domain : String
  name : String
  version_min : Nat
  version_max : Option Nat
  backend : String
  type_constraints : List (String × List ElementType)
  io_type_bindings : List IoSlot
  memory_overrides : List ((Nat × Bool) × MemLocation)
deriving DecidableEq

/-- Look up the allowed element types of a named constraint of a
descriptor. -/
def lookupConstraint (d : KernelDescriptor) (cn : String) :
    Option (List ElementType) :=
  (d.type_constraints.find? (fun p => p.1 == cn)).map Prod.snd

/-- True when the concrete type t is a member of the allowed set of the
constraint named cn of the descriptor; an undeclared name allows nothing. -/
def slotTypeOk (d : KernelDescriptor) (cn : String) (t : ElementType) : Bool :=
  match lookupConstraint d cn with
  | some allowed => allowed.contains t
  | none => false

/-- Modelled from the spec: Satisfies (spec section 4.2); the corresponding
type constraint check of the onnxruntime kernel registry is not part of the
source file under study.  Every slot type must belong to the allowed set of
the constraint that governs the slot, and slots sharing one constraint name
must carry one identical concrete type. -/
def Satisfies (d : KernelDescriptor) (ts : List ElementType) : Bool :=
  ts.length == d.io_type_bindings.length &&
  (d.io_type_bindings.zip ts).all (fun p =>
    slotTypeOk d p.1.constraintName p.2) &&
  (d.io_type_bindings.zip ts).all (fun p =>
    (d.io_type_bindings.zip ts).all (fun q =>
      p.1.constraintName != q.1.constraintName || p.2 == q.2))

/-- Modelled from the spec: InRange (spec section 4.3); the opset version
check of the onnxruntime kernel registry is not part of the source file under
study.  Both interval ends are inclusive; an absent upper end behaves as plus
infinity. -/
def InRange (d : KernelDescriptor) (v : Nat) : Bool :=
  decide (d.version_min ≤ v) &&
  (match d.version_max with
   | none => true
   | some m => decide (v ≤ m))

/-- Modelled from the spec: PlacementFor (spec section 4.4); the memory type
query of the onnxruntime KernelDef is not part of the source file under
study.  Returns the override recorded for the slot when present, the backend
default otherwise. -/
def PlacementFor (d : KernelDescriptor) (idx : Nat) (input : Bool) :
    MemLocation :=
  match d.memory_overrides.find? (fun o => o.1 == (idx, input)) with
  | some o => o.2
  | none => MemLocation.backend_default

/-- Modelled from the spec: the Registry state (spec sections 3 and 4.5);
the process wide onnxruntime KernelRegistry is not part of the source file
under study.  It is populated while unsealed and read only once sealed. -/
structure Registry where
  descriptors : List KernelDescriptor
  isSealed : Bool
deriving DecidableEq

deriving instance DecidableEq for Except

/-- Errors of Register, as named by the spec error taxonomy. -/
inductive RegisterError where
  | ConflictError
  | RegistrySealed
deriving DecidableEq

/-- Errors of Resolve, as named by the spec error taxonomy. -/
inductive ResolveError where
  | NoMatchingKernel
  | AmbiguousKernel
  | NotSealed
deriving DecidableEq

/-- True when the closed version intervals of the two descriptors
intersect; an absent upper end behaves as plus infinity. -/
def versionsOverlap (a b : KernelDescriptor) : Bool :=
  (match b.version_max with
   | none => true
   | some m => decide (a.version_min ≤ m)) &&
  (match a.version_max with
   | none => true
   | some m => decide (b.version_min ≤ m))

/-- All lists of element types of the given length, enumerating every
concrete type assignment over that many slots. -/
def allAssignments : Nat → List (List ElementType)
  | 0 => [[]]
  | n + 1 =>
    ElementType.all.flatMap (fun t => (allAssignments n).map (fun ts => t :: ts))

/-- True when at least one concrete type assignment satisfies the
constraints of both descriptors. -/
def typesOverlap (a b : KernelDescriptor) : Bool :=
  (allAssignments a.io_type_bindings.length).any
    (fun ts => Satisfies a ts && Satisfies b ts)

/-- True when registering b next to a would make dispatch ambiguous: same
key, intersecting version intervals and a common satisfying assignment. -/
def conflictsWith (a b : KernelDescriptor) : Bool :=
  a.domain == b.domain && a.name == b.name && a.backend == b.backend &&
  versionsOverlap a b && typesOverlap a b

/-- Modelled from the spec: Register (spec section 4.5); the registration
entry point of the onnxruntime kernel registry is not part of the source file
under study.  Rejected outright once the registry is sealed; rejected with
ConflictError when an already registered descriptor conflicts. -/
def Register (r : Registry) (d : KernelDescriptor) :
    Except RegisterError Registry :=
  if r.isSealed then
    Except.error RegisterError.RegistrySealed
  else if r.descriptors.any (fun e => conflictsWith e d) then
    Except.error RegisterError.ConflictError
  else
    Except.ok { descriptors := r.descriptors ++ [d], isSealed := false }

/-- Lookup result: the chosen descriptor together with the memory placement
of every slot, in slot order. -/
structure ResolvedKernel where
  descriptor : KernelDescriptor
  placements : List MemLocation
deriving DecidableEq

/-- Wrap a surviving descriptor, computing the placement of every slot via
PlacementFor. -/
def mkResolved (d : KernelDescriptor) : ResolvedKernel :=
  { descriptor := d
    placements := d.io_type_bindings.map (fun s => PlacementFor d s.index s.isInput) }

/-- The descriptors surviving all three filters of Resolve: key, version,
types. -/
def survivors (r : Registry) (dom nm bk : String) (v : Nat)
    (ts : List ElementType) : List KernelDescriptor :=
  r.descriptors.filter (fun d =>
    d.domain == dom && d.name == nm && d.backend == bk &&
    InRange d v && Satisfies d ts)

/-- Case split of Resolve on the surviving descriptors: exactly one gives a
ResolvedKernel, zero gives NoMatchingKernel, more give AmbiguousKernel. -/
def pickUnique (l : List KernelDescriptor) :
    Except ResolveError ResolvedKernel :=
  match l with
  | [] => Except.error ResolveError.NoMatchingKernel
  | [d] => Except.ok (mkResolved d)
  | _ :: _ :: _ => Except.error ResolveError.AmbiguousKernel

/-- Modelled from the spec: Resolve (spec section 4.5); the lookup entry
point of the onnxruntime kernel registry is not part of the source file under
study.  Only a sealed registry answers lookups. -/
def Resolve (r : Registry) (dom nm bk : String) (v : Nat)
    (ts : List ElementType) : Except ResolveError ResolvedKernel :=
  if r.isSealed then
    pickUnique (survivors r dom nm bk v ts)
  else
    Except.error ResolveError.NotSealed

/-- Operations that may be issued against a registry over its lifetime. -/
inductive RegistryOp where
  | register (d : KernelDescriptor)
  | sealReg
  | resolve (dom nm bk : String) (v : Nat) (ts : List ElementType)
deriving DecidableEq

/-- True for the sealing operation only. -/
def isSealOp : RegistryOp → Bool
  | RegistryOp.sealReg => true
  | _ => false

/-- Modelled from the spec: the lifecycle of the registry (spec section 4.5
state machine); the static initialization phase of the onnxruntime process is
not part of the source file under study.  A rejected Register leaves the
registry unchanged, seal turns the Populating registry into the Sealed one,
and Resolve never mutates state. -/
def stepOp (r : Registry) : RegistryOp → Registry
  | RegistryOp.register d =>
      match Register r d with
      | Except.ok r' => r'
      | Except.error _ => r
  | RegistryOp.sealReg => { r with isSealed := true }
  | RegistryOp.resolve _ _ _ _ _ => r

/-- Run a whole sequence of registry operations from a starting state. -/
def runOps (r : Registry) : List RegistryOp → Registry
  | [] => r
  | op :: rest => runOps (stepOp r op) rest

/-- The ONNX domain constant of the source; its value in the repository is
the empty string. -/
def kOnnxDomain : String := ""

/-- The CUDA execution provider tag of the source. -/
def kCudaExecutionProvider : String := "CUDAExecutionProvider"

/-- DataTypeImpl.AllIEEEFloatTensorTypes of the repository: float, double and
MLFloat16 element types. -/
def AllIEEEFloatTensorTypes : List ElementType :=
  [ElementType.float32, ElementType.float64, ElementType.float16]

/-- The type list of the T and T1 constraints of the opset 13 Dropout
registration in dropout.cc: float, double, MLFloat16, and BFloat16 exactly
when the build has CUDA_VERSION at least 11000. -/
def dropout13Types (cuda11 : Bool) : List ElementType :=
  if cuda11 then
    [ElementType.float32, ElementType.float64, ElementType.bfloat16,
     ElementType.float16]
  else
    [ElementType.float32, ElementType.float64, ElementType.float16]

/-- The input slots of the ONNX Dropout operator as constrained by
dropout.cc: data governed by T, ratio by T1, training_mode by T2. -/
def dropoutSlots : List IoSlot :=
  [{ isInput := true, index := 0, constraintName := "T" },
   { isInput := true, index := 1, constraintName := "T1" },
   { isInput := true, index := 2, constraintName := "T2" }]

/-- The CUDA Dropout descriptor registered by
ONNX_OPERATOR_VERSIONED_KERNEL_EX in dropout.cc lines 9 to 20: versions 12 to
12, T and T1 the IEEE float tensor types, T2 bool, inputs 1 and 2 pinned to
host memory via InputMemoryType OrtMemTypeCPUInput. -/
def dropoutCuda12 : KernelDescriptor :=
  { domain := kOnnxDomain
    name := "Dropout"
    version_min := 12
    version_max := some 12
    backend := kCudaExecutionProvider
    type_constraints :=
      [("T", AllIEEEFloatTensorTypes),
       ("T1", AllIEEEFloatTensorTypes),
       ("T2", [ElementType.boolT])]
    io_type_bindings := dropoutSlots
    memory_overrides :=
      [((1, true), MemLocation.host), ((2, true), MemLocation.host)] }

/-- The CUDA Dropout descriptor registered by ONNX_OPERATOR_KERNEL_EX in
dropout.cc lines 22 to 43: versions 13 and later (unbounded), T and T1 as in
dropout13Types with BFloat16 conditional on the CUDA 11 build parameter, T2
bool, inputs 1 and 2 pinned to host memory. -/
def dropoutCuda13 (cuda11 : Bool) : KernelDescriptor :=
  { domain := kOnnxDomain
    name := "Dropout"
    version_min := 13
    version_max := none
    backend := kCudaExecutionProvider
    type_constraints :=
      [("T", dropout13Types cuda11),
       ("T1", dropout13Types cuda11),
       ("T2", [ElementType.boolT])]
    io_type_bindings := dropoutSlots
    memory_overrides :=
      [((1, true), MemLocation.host), ((2, true), MemLocation.host)] }

/-- The sealed registry populated with exactly the two descriptors that
dropout.cc registers. -/
def dropoutFileRegistry (cuda11 : Bool) : Registry :=
  { descriptors := [dropoutCuda12, dropoutCuda13 cuda11], isSealed := true }

/-- The spec test descriptor for the no match scenario: the opset 13 Dropout
shape under domain test and backend X, with T and T1 allowing float32,
float64, float16 and bfloat16. -/
def testDropout13 : KernelDescriptor :=
  { domain := "test"
    name := "Dropout"
    version_min := 13
    version_max := none
    backend := "X"
    type_constraints :=
      [("T", dropout13Types true),
       ("T1", dropout13Types true),
       ("T2", [ElementType.boolT])]
    io_type_bindings := dropoutSlots
    memory_overrides :=
      [((1, true), MemLocation.host), ((2, true), MemLocation.host)] }

/-- The spec test descriptor for shared constraint agreement: two input
slots both governed by one constraint T allowing float32 and float16. -/
def sharedTDescriptor : KernelDescriptor :=
  { domain := "test"
    name := "Shared"
    version_min := 1
    version_max := none
    backend := "X"
    type_constraints := [("T", [ElementType.float32, ElementType.float16])]
    io_type_bindings :=
      [{ isInput := true, index := 0, constraintName := "T" },
       { isInput := true, index := 1, constraintName := "T" }]
    memory_overrides := [] }

/-- The spec test descriptor for conflict rejection: domain test, name
Dropout, backend X, versions 12 to 12, one slot governed by T allowing
float32 and float16. -/
def conflictFirst : KernelDescriptor :=
  { domain := "test"
    name := "Dropout"
    version_min := 12
    version_max := some 12
    backend := "X"
    type_constraints := [("T", [ElementType.float32, ElementType.float16])]
    io_type_bindings := [{ isInput := true, index := 0, constraintName := "T" }]
    memory_overrides := [] }

/-- A second descriptor under the same key with the overlapping interval 12
to 12 and the overlapping type set containing float32. -/
def conflictSecond : KernelDescriptor :=
  { domain := "test"
    name := "Dropout"
    version_min := 12
    version_max := some 12
    backend := "X"
    type_constraints := [("T", [ElementType.float32])]
    io_type_bindings := [{ isInput := true, index := 0, constraintName := "T" }]
    memory_overrides := [] }

end KernelRegistryModel

section Helpers

lemma pickUnique_ne_notSealed (l : List KernelDescriptor) :
    pickUnique l ≠ Except.error ResolveError.NotSealed := by
  rcases l with _ | ⟨d, _ | ⟨e, rest⟩⟩ <;> simp [pickUnique]

lemma pickUnique_ne_ambiguous {l : List KernelDescriptor} (h : l.length ≤ 1) :
    pickUnique l ≠ Except.error ResolveError.AmbiguousKernel := by
  rcases l with _ | ⟨d, _ | ⟨e, rest⟩⟩
  · simp [pickUnique]
  · simp [pickUnique]
  · simp at h

lemma filter_pair_length_le {α : Type} (p : α → Bool) (a b : α)
    (h : p a = false ∨ p b = false) :
    (List.filter p [a, b]).length ≤ 1 := by
  rcases h with h | h <;> simp only [List.filter_cons, List.filter_nil, h,
      Bool.false_eq_true, if_false] <;> split <;> simp

lemma stepOp_isSealed (r : Registry) (op : RegistryOp) :
    (stepOp r op).isSealed = (r.isSealed || isSealOp op) := by
  cases op with
  | register d =>
      cases hs : r.isSealed
      · simp only [stepOp, Register, hs, Bool.false_eq_true, if_false, isSealOp,
          Bool.or_false]
        rcases hany : r.descriptors.any (fun e => conflictsWith e d) <;> simp [hany, hs]
      · simp [stepOp, Register, hs, isSealOp]
  | sealReg => simp [stepOp, isSealOp]
  | resolve dom nm bk v ts => simp [stepOp, isSealOp]

lemma runOps_isSealed (ops : List RegistryOp) :
    ∀ r : Registry, (runOps r ops).isSealed = (r.isSealed || ops.any isSealOp) := by
  induction ops with
  | nil => intro r; simp [runOps]
  | cons op rest ih =>
      intro r
      simp [runOps, ih (stepOp r op), stepOp_isSealed, List.any_cons, Bool.or_assoc]

lemma find?_override_of_mem (l : List ((Nat × Bool) × MemLocation))
    (k : Nat × Bool) (loc : MemLocation)
    (hnd : (l.map Prod.fst).Nodup) (hm : (k, loc) ∈ l) :
    l.find? (fun o => o.1 == k) = some (k, loc) := by
  induction l with
  | nil => simp at hm
  | cons hd tl ih =>
      rcases List.mem_cons.mp hm with hhd | htl
      · subst hhd
        simp [List.find?]
      · have hkey : hd.1 ≠ k := by
          intro hk
          have : k ∈ tl.map Prod.fst := List.mem_map.mpr ⟨(k, loc), htl, rfl⟩
          have hnotin := (List.nodup_cons.mp hnd).1
          rw [hk] at hnotin
          exact hnotin this
        have hb : (hd.1 == k) = false := beq_eq_false_iff_ne.mpr hkey
        simp only [List.find?, hb]
        exact ih (List.nodup_cons.mp hnd).2 htl

lemma find?_override_of_not_mem (l : List ((Nat × Bool) × MemLocation))
    (k : Nat × Bool) (hm : ∀ loc, (k, loc) ∉ l) :
    l.find? (fun o => o.1 == k) = none := by
  rw [List.find?_eq_none]
  intro x hx
  intro hb
  have hk : x.1 = k := by simpa using hb
  exact hm x.2 (by simpa [← hk] using hx)

lemma slotTypeOk_iff (d : KernelDescriptor) (cn : String) (t : ElementType) :
    slotTypeOk d cn t = true ↔
    ∃ allowed, lookupConstraint d cn = some allowed ∧ t ∈ allowed := by
  unfold slotTypeOk
  cases h : lookupConstraint d cn <;> simp [h]

lemma mem_elementType_all (t : ElementType) : t ∈ ElementType.all := by
  cases t <;> simp [ElementType.all]

lemma mem_allAssignments (ts : List ElementType) : ts ∈ allAssignments ts.length := by
  induction ts with
  | nil => simp [allAssignments]
  | cons t rest ih =>
      simp only [List.length_cons, allAssignments, List.mem_flatMap, List.mem_map]
      exact ⟨t, mem_elementType_all t, rest, ih, rfl⟩

lemma satisfies_length {d : KernelDescriptor} {ts : List ElementType}
    (h : Satisfies d ts = true) : ts.length = d.io_type_bindings.length := by
  unfold Satisfies at h
  rw [Bool.and_eq_true, Bool.and_eq_true] at h
  exact eq_of_beq h.1.1

lemma typesOverlap_iff (a b : KernelDescriptor) :
    typesOverlap a b = true ↔
      ∃ ts, Satisfies a ts = true ∧ Satisfies b ts = true := by
  unfold typesOverlap
  rw [List.any_eq_true]
  constructor
  · rintro ⟨ts, hmem, hsat⟩
    rw [Bool.and_eq_true] at hsat
    exact ⟨ts, hsat⟩
  · rintro ⟨ts, h1, h2⟩
    refine ⟨ts, ?_, by rw [Bool.and_eq_true]; exact ⟨h1, h2⟩⟩
    have hl := satisfies_length h1
    rw [← hl]
    exact mem_allAssignments ts

lemma versionsOverlap_iff (a b : KernelDescriptor)
    (ha : ∀ m, a.version_max = some m → a.version_min ≤ m)
    (hb : ∀ m, b.version_max = some m → b.version_min ≤ m) :
    versionsOverlap a b = true ↔
      ∃ v, InRange a v = true ∧ InRange b v = true := by
  unfold versionsOverlap InRange
  cases hma : a.version_max <;> cases hmb : b.version_max <;> simp [hma, hmb]
  · exact ⟨max a.version_min b.version_min, Nat.le_max_left _ _, Nat.le_max_right _ _⟩
  · have hbm := hb _ hmb
    constructor
    · intro h
      refine ⟨max a.version_min b.version_min, ?_, ?_, ?_⟩ <;> omega
    · rintro ⟨v, h1, h2, h3⟩
      omega
  · have ham := ha _ hma
    constructor
    · intro h
      refine ⟨max a.version_min b.version_min, ⟨?_, ?_⟩, ?_⟩ <;> omega
    · rintro ⟨v, ⟨h1, h2⟩, h3⟩
      omega
  · have ham := ha _ hma
    have hbm := hb _ hmb
    constructor
    · rintro ⟨h1, h2⟩
      refine ⟨max a.version_min b.version_min, ⟨?_, ?_⟩, ?_, ?_⟩ <;> omega
    · rintro ⟨v, ⟨h1, h2⟩, h3, h4⟩
      omega

lemma register_single_conflict (d1 d2 : KernelDescriptor)
    (hdom : d1.domain = d2.domain) (hnm : d1.name = d2.name)
    (hbk : d1.backend = d2.backend) :
    (Register { descriptors := [d1], isSealed := false } d2 =
        Except.error RegisterError.ConflictError) ↔
      (versionsOverlap d1 d2 && typesOverlap d1 d2) = true := by
  cases hc : versionsOverlap d1 d2 && typesOverlap d1 d2 <;>
    simp [Register, conflictsWith, hdom, hnm, hbk, hc]

lemma satisfies_dropout12_bfloat16 (ts : List ElementType)
    (h0 : ts[0]? = some ElementType.bfloat16) :
    Satisfies dropoutCuda12 ts = false := by
  by_cases hl : ts.length = 3
  · obtain ⟨t0, t1, t2, rfl⟩ := List.length_eq_three.mp hl
    have ht0 : t0 = ElementType.bfloat16 := by simpa using h0
    subst ht0
    have hmem : slotTypeOk dropoutCuda12 "T" ElementType.bfloat16 = false := by decide
    have hbind : dropoutCuda12.io_type_bindings = dropoutSlots := rfl
    simp [Satisfies, hbind, dropoutSlots, hmem]
  · have hne : (ts.length == dropoutCuda12.io_type_bindings.length) = false :=
      beq_eq_false_iff_ne.mpr hl
    simp [Satisfies, hne]

end Helpers

section ClaimTheorems

/-- Claim C1: over a sealed registry, Resolve returns a ResolvedKernel
wrapping the descriptor, with placements computed for every slot, if and only
if exactly one descriptor survives the key, version and type filters; it
fails with NoMatchingKernel if and only if zero survive; and it fails with
AmbiguousKernel if and only if more than one survives. -/
theorem resolve_trichotomy (r : Registry) (dom nm bk : String) (v : Nat)
    (ts : List ElementType) (hs : r.isSealed = true) :
    (Resolve r dom nm bk v ts = Except.error ResolveError.NoMatchingKernel ↔
      survivors r dom nm bk v ts = []) ∧
    (Resolve r dom nm bk v ts = Except.error ResolveError.AmbiguousKernel ↔
      1 < (survivors r dom nm bk v ts).length) ∧
    (∀ res, Resolve r dom nm bk v ts = Except.ok res ↔
      (survivors r dom nm bk v ts = [res.descriptor] ∧
        res = mkResolved res.descriptor)) := by
  unfold Resolve
  rw [if_pos hs]
  rcases h : survivors r dom nm bk v ts with _ | ⟨d, _ | ⟨e, rest⟩⟩
  · simp [pickUnique]
  · refine ⟨by simp [pickUnique], by simp [pickUnique], ?_⟩
    intro res
    constructor
    · intro hok
      have hres : res = mkResolved d := by
        simpa [pickUnique] using hok.symm
      subst hres
      simp [mkResolved]
    · rintro ⟨hd, hres⟩
      have : d = res.descriptor := by simpa using congrArg (fun l => l.head?) hd
      simp [pickUnique, this, ← hres]
  · simp [pickUnique]

/-- Witness for claim C1: the trichotomy instantiated at the sealed empty
registry, where the zero survivor branch applies. -/
theorem resolve_trichotomy_witness :
    Resolve { descriptors := [], isSealed := true } "a" "b" "c" 1 [] =
      Except.error ResolveError.NoMatchingKernel ↔
      survivors { descriptors := [], isSealed := true } "a" "b" "c" 1 [] = [] :=
  (resolve_trichotomy { descriptors := [], isSealed := true } "a" "b" "c" 1 [] rfl).1

/-- Claim C2: for a pair of well formed descriptors under one
(domain, name, backend) key, registering the second next to the first fails
with ConflictError if and only if the version intervals intersect and at
least one concrete type assignment satisfies both descriptors; the check
happens inside Register itself, at load time.  In particular the second
spec test Dropout descriptor, with overlapping interval 12 to 12 and an
overlapping type set, is rejected with ConflictError. -/
theorem register_conflict (d1 d2 : KernelDescriptor)
    (ha : ∀ m, d1.version_max = some m → d1.version_min ≤ m)
    (hb : ∀ m, d2.version_max = some m → d2.version_min ≤ m)
    (hdom : d1.domain = d2.domain) (hnm : d1.name = d2.name)
    (hbk : d1.backend = d2.backend) :
    (Register { descriptors := [d1], isSealed := false } d2 =
        Except.error RegisterError.ConflictError ↔
      ((∃ v, InRange d1 v = true ∧ InRange d2 v = true) ∧
       (∃ ts, Satisfies d1 ts = true ∧ Satisfies d2 ts = true))) ∧
    Register { descriptors := [conflictFirst], isSealed := false } conflictSecond =
      Except.error RegisterError.ConflictError := by
  refine ⟨?_, by decide⟩
  rw [register_single_conflict d1 d2 hdom hnm hbk, Bool.and_eq_true,
    versionsOverlap_iff d1 d2 ha hb, typesOverlap_iff d1 d2]

/-- Witness for claim C2: the concrete conflicting Dropout registration of
the spec test is rejected with ConflictError. -/
theorem register_conflict_witness :
    Register { descriptors := [conflictFirst], isSealed := false } conflictSecond =
      Except.error RegisterError.ConflictError :=
  (register_conflict conflictFirst conflictSecond
    (by intro m hm; simp [conflictFirst] at hm ⊢; omega)
    (by intro m hm; simp [conflictSecond] at hm ⊢; omega)
    rfl rfl rfl).2

/-- Claim C3: Satisfies holds if and only if the concrete type of every slot
is a member of the allowed set of the constraint named by its binding and any
two slots bound to the same constraint name carry one identical concrete
type.  In particular the shared constraint descriptor of the spec test, with
both inputs bound to T allowing float32 and float16, rejects the mismatched
pair float32 float16 and accepts the pair float16 float16. -/
theorem satisfies_member_and_agreement (d : KernelDescriptor)
    (ts : List ElementType)
    (hlen : ts.length = d.io_type_bindings.length) :
    (Satisfies d ts = true ↔
      ((∀ p ∈ d.io_type_bindings.zip ts,
          ∃ allowed, lookupConstraint d p.1.constraintName = some allowed ∧
            p.2 ∈ allowed) ∧
       (∀ p ∈ d.io_type_bindings.zip ts, ∀ q ∈ d.io_type_bindings.zip ts,
          p.1.constraintName = q.1.constraintName → p.2 = q.2))) ∧
    Satisfies sharedTDescriptor [ElementType.float32, ElementType.float16] = false ∧
    Satisfies sharedTDescriptor [ElementType.float16, ElementType.float16] = true := by
  refine ⟨?_, by decide, by decide⟩
  unfold Satisfies
  rw [hlen]
  simp only [beq_self_eq_true, Bool.true_and, Bool.and_eq_true, List.all_eq_true]
  constructor
  · rintro ⟨h1, h2⟩
    refine ⟨fun p hp => (slotTypeOk_iff d p.1.constraintName p.2).mp (h1 p hp), ?_⟩
    intro p hp q hq hname
    have h3 := h2 p hp q hq
    simpa [hname] using h3
  · rintro ⟨h1, h2⟩
    refine ⟨fun p hp => (slotTypeOk_iff d p.1.constraintName p.2).mpr (h1 p hp), ?_⟩
    intro p hp q hq
    by_cases hname : p.1.constraintName = q.1.constraintName
    · simp [hname, h2 p hp q hq hname]
    · simp [hname]

/-- Witness for claim C3: the agreeing pair float16 float16 is accepted by
the shared constraint descriptor. -/
theorem satisfies_member_witness :
    Satisfies sharedTDescriptor [ElementType.float16, ElementType.float16] = true :=
  (satisfies_member_and_agreement sharedTDescriptor
    [ElementType.float16, ElementType.float16] (by decide)).2.2

/-- Claim C4: InRange holds exactly on the closed interval from version_min
to version_max, an absent version_max behaving as plus infinity.  In
particular the versioned Dropout descriptor with interval 12 to 12 matches
exactly version 12, and the opset 13 descriptor with unbounded upper end
matches versions 13, 14 and 1000. -/
theorem inRange_closed_interval (d : KernelDescriptor) (v : Nat) :
    (InRange d v = true ↔
      (d.version_min ≤ v ∧ ∀ m, d.version_max = some m → v ≤ m)) ∧
    InRange dropoutCuda12 12 = true ∧ InRange dropoutCuda12 11 = false ∧
    InRange dropoutCuda12 13 = false ∧
    InRange (dropoutCuda13 true) 13 = true ∧
    InRange (dropoutCuda13 true) 14 = true ∧
    InRange (dropoutCuda13 true) 1000 = true := by
  refine ⟨?_, by decide, by decide, by decide, by decide, by decide, by decide⟩
  cases hm : d.version_max <;> simp [InRange, hm]

/-- Claim C5: PlacementFor returns the location recorded in the memory
overrides of the descriptor when an override for the slot index and
direction is present, and backend_default otherwise.  In particular the
Dropout descriptor from dropout.cc, which pins input slots 1 and 2 to host,
yields host for input slot 1 and backend_default for input slot 0. -/
theorem placementFor_override (d : KernelDescriptor) (i : Nat) (b : Bool)
    (hnd : (d.memory_overrides.map Prod.fst).Nodup) :
    (∀ loc, ((i, b), loc) ∈ d.memory_overrides → PlacementFor d i b = loc) ∧
    ((∀ loc, ((i, b), loc) ∉ d.memory_overrides) →
      PlacementFor d i b = MemLocation.backend_default) ∧
    PlacementFor dropoutCuda12 1 true = MemLocation.host ∧
    PlacementFor dropoutCuda12 2 true = MemLocation.host ∧
    PlacementFor dropoutCuda12 0 true = MemLocation.backend_default := by
  refine ⟨?_, ?_, by decide, by decide, by decide⟩
  · intro loc hm
    unfold PlacementFor
    rw [find?_override_of_mem d.memory_overrides (i, b) loc hnd hm]
  · intro hm
    unfold PlacementFor
    rw [find?_override_of_not_mem d.memory_overrides (i, b) hm]

/-- Witness for claim C5: input slot 1 of the versioned Dropout descriptor
is placed on the host. -/
theorem placementFor_override_witness :
    PlacementFor dropoutCuda12 1 true = MemLocation.host :=
  (placementFor_override dropoutCuda12 1 true (by decide)).2.2.1

/-- Claim C6: resolving domain test, name Dropout, backend X at version 12
with types int32, int32, bool against a registry holding only the opset 13
descriptor whose T constraint allows float32, float64, float16 and bfloat16
returns the NoMatchingKernel error value. -/
theorem resolve_nomatch_wrong_types :
    Resolve { descriptors := [testDropout13], isSealed := true } "test" "Dropout"
        "X" 12 [ElementType.int32, ElementType.int32, ElementType.boolT] =
      Except.error ResolveError.NoMatchingKernel := by decide

/-- Claim C7: Resolve is a deterministic pure function of the registry
contents and its arguments: two registries with identical descriptor lists
and seal state give identical results on identical arguments. -/
theorem resolve_deterministic (r1 r2 : Registry) (dom nm bk : String) (v : Nat)
    (ts : List ElementType) (hd : r1.descriptors = r2.descriptors)
    (hs : r1.isSealed = r2.isSealed) :
    Resolve r1 dom nm bk v ts = Resolve r2 dom nm bk v ts := by
  cases r1
  cases r2
  simp only at hd hs
  subst hd
  subst hs
  rfl

/-- Witness for claim C7: two identical lookups against the Dropout registry
agree. -/
theorem resolve_deterministic_witness :
    Resolve (dropoutFileRegistry true) kOnnxDomain "Dropout" kCudaExecutionProvider
        13 [ElementType.float32, ElementType.float32, ElementType.boolT] =
      Resolve (dropoutFileRegistry true) kOnnxDomain "Dropout" kCudaExecutionProvider
        13 [ElementType.float32, ElementType.float32, ElementType.boolT] :=
  resolve_deterministic (dropoutFileRegistry true) (dropoutFileRegistry true)
    kOnnxDomain "Dropout" kCudaExecutionProvider 13
    [ElementType.float32, ElementType.float32, ElementType.boolT] rfl rfl

/-- Claim C8: the registry is a two state machine.  Resolve is rejected with
NotSealed exactly in the Populating state, Register is rejected with
RegistrySealed exactly in the Sealed state, a Populating registry without a
conflicting entry accepts Register, and over any operation sequence the seal
flag afterwards is the initial flag joined with whether a seal operation
occurred, so the transition runs only from Populating to Sealed, happens at
most once, and is never undone. -/
theorem registry_two_state (r : Registry) (dom nm bk : String) (v : Nat)
    (ts : List ElementType) (d : KernelDescriptor) (ops : List RegistryOp) :
    (Resolve r dom nm bk v ts = Except.error ResolveError.NotSealed ↔
      r.isSealed = false) ∧
    (Register r d = Except.error RegisterError.RegistrySealed ↔
      r.isSealed = true) ∧
    (∀ d0, Register { descriptors := [], isSealed := false } d0 =
      Except.ok { descriptors := [d0], isSealed := false }) ∧
    (runOps r ops).isSealed = (r.isSealed || ops.any isSealOp) := by
  refine ⟨?_, ?_, fun d0 => by simp [Register], runOps_isSealed ops r⟩
  · cases hs : r.isSealed
    · simp [Resolve, hs]
    · simp only [Resolve, hs, if_true]
      simp [pickUnique_ne_notSealed]
  · cases hs : r.isSealed
    · simp only [Register, hs, Bool.false_eq_true, if_false]
      rcases hany : r.descriptors.any (fun e => conflictsWith e d) <;> simp [hany]
    · simp [Register, hs]

/-- Claim C9: the two Dropout descriptors of dropout.cc carry the disjoint
version intervals 12 to 12 and 13 to unbounded, so no requested version lies
in both, and a lookup of the Dropout key against the registry populated only
from this file never fails with AmbiguousKernel, whatever the version and
concrete types. -/
theorem dropout_registrations_disjoint (cuda11 : Bool) (v : Nat)
    (ts : List ElementType) :
    (¬ (InRange dropoutCuda12 v = true ∧ InRange (dropoutCuda13 cuda11) v = true)) ∧
    Resolve (dropoutFileRegistry cuda11) kOnnxDomain "Dropout"
        kCudaExecutionProvider v ts ≠
      Except.error ResolveError.AmbiguousKernel := by
  constructor
  · simp only [InRange, dropoutCuda12, dropoutCuda13, Bool.and_eq_true,
      decide_eq_true_eq]
    omega
  · have hseal : Resolve (dropoutFileRegistry cuda11) kOnnxDomain "Dropout"
        kCudaExecutionProvider v ts =
        pickUnique (survivors (dropoutFileRegistry cuda11) kOnnxDomain "Dropout"
          kCudaExecutionProvider v ts) := by
      simp [Resolve, dropoutFileRegistry]
    rw [hseal]
    apply pickUnique_ne_ambiguous
    simp only [survivors, dropoutFileRegistry]
    apply filter_pair_length_le
    rcases Nat.lt_or_ge v 13 with hv | hv
    · have h13 : InRange (dropoutCuda13 cuda11) v = false := by
        simp only [InRange, dropoutCuda13, Bool.and_true]
        simp only [decide_eq_false_iff_not]
        omega
      exact Or.inr (by simp [h13])
    · have h12 : InRange dropoutCuda12 v = false := by
        simp only [InRange, dropoutCuda12]
        have hd : decide (v ≤ 12) = false := by
          simp only [decide_eq_false_iff_not]
          omega
        simp [hd]
      exact Or.inl (by simp [h12])

/-- Claim C10: the opset 12 Dropout descriptor allows only the IEEE float
tensor types and never bfloat16, bfloat16 membership in the opset 13
constraint sets holds exactly when the CUDA 11 build parameter is enabled,
and hence every version 12 lookup whose data slot type is bfloat16 fails
with NoMatchingKernel in every build configuration. -/
theorem dropout12_rejects_bfloat16 (cuda11 : Bool) (ts : List ElementType)
    (h0 : ts[0]? = some ElementType.bfloat16) :
    (ElementType.bfloat16 ∉ AllIEEEFloatTensorTypes) ∧
    (ElementType.bfloat16 ∈ dropout13Types cuda11 ↔ cuda11 = true) ∧
    Resolve (dropoutFileRegistry cuda11) kOnnxDomain "Dropout"
        kCudaExecutionProvider 12 ts =
      Except.error ResolveError.NoMatchingKernel := by
  refine ⟨by decide, by cases cuda11 <;> decide, ?_⟩
  have h13 : InRange (dropoutCuda13 cuda11) 12 = false := by
    cases cuda11 <;> decide
  have hsat := satisfies_dropout12_bfloat16 ts h0
  simp [Resolve, dropoutFileRegistry, survivors, List.filter_cons, h13, hsat,
    pickUnique]

/-- Witness for claim C10: a concrete bfloat16 assignment at version 12
fails with NoMatchingKernel on the CUDA 11 build. -/
theorem dropout12_rejects_bfloat16_witness :
    Resolve (dropoutFileRegistry true) kOnnxDomain "Dropout"
        kCudaExecutionProvider 12
        [ElementType.bfloat16, ElementType.float32, ElementType.boolT] =
      Except.error ResolveError.NoMatchingKernel :=
  (dropout12_rejects_bfloat16 true
    [ElementType.bfloat16, ElementType.float32, ElementType.boolT]
    (by decide)).2.2

end ClaimTheorems
